import Mathlib

/-!
Verification of the parking-spot sensor simulation (`sensor_sim_20.py`).

The file shallowly embeds the algorithmic core of the source:
the threshold detector, the per-spot debounce state machine
(`Spot.update_debounced_status`), the dwell-duration draws of the world
model (`Spot._park_duration` / `Spot._free_duration`), and the body of
the change-gated publisher loop in `main` (one spot; the loop treats the
spots independently, each with its own `Spot` state and its own
`last_published` entry).  Distances are modelled as rationals; the
randomness of the world model is modelled by passing the drawn base
value as an explicit argument.
-/

namespace SensorSim

/-- The stable status of a spot: the strings "FREE" / "OCCUPIED" of the
source. -/
inductive Status where
  | FREE
  | OCCUPIED
deriving DecidableEq

/-- `THRESHOLD_CM = 50.0` of the source. -/
def THRESHOLD_CM : ℚ := 50

/-- `DEBOUNCE_N = 4` of the source. -/
def DEBOUNCE_N : Nat := 4

/-- The detector: `detected_occ = distance_cm < THRESHOLD_CM`
(line 74 of the source), with the threshold as a parameter as in the
spec's `detect(distance_cm, threshold_cm)` contract. -/
def detect (distance_cm threshold_cm : ℚ) : Bool :=
  decide (distance_cm < threshold_cm)

/-- The debounce-relevant mutable fields of class `Spot`:
`stable_status`, `occ_count`, `free_count`. -/
structure SpotState where
  stable_status : Status
  occ_count : Nat
  free_count : Nat
deriving DecidableEq

/-- The state of a freshly constructed `Spot` (`Spot.__init__`):
`stable_status = "FREE"`, `occ_count = 0`, `free_count = 0`. -/
def initSpot : SpotState :=
  { stable_status := Status.FREE, occ_count := 0, free_count := 0 }

/-- The debounce core of `Spot.update_debounced_status` (lines 76-95),
acting on an instantaneous detection: increment the matching counter and
zero the opposite one, then switch `stable_status` when the matching
counter has reached `DEBOUNCE_N` and the status differs, resetting both
counters on a switch. -/
def stepState (s : SpotState) (detected_occ : Bool) : SpotState :=
  let s1 :=
    if detected_occ then
      { s with occ_count := s.occ_count + 1, free_count := 0 }
    else
      { s with free_count := s.free_count + 1, occ_count := 0 }
  if s1.stable_status ≠ Status.OCCUPIED ∧ DEBOUNCE_N ≤ s1.occ_count then
    { stable_status := Status.OCCUPIED, occ_count := 0, free_count := 0 }
  else if s1.stable_status ≠ Status.FREE ∧ DEBOUNCE_N ≤ s1.free_count then
    { stable_status := Status.FREE, occ_count := 0, free_count := 0 }
  else s1

/-- `Spot.update_debounced_status` (lines 68-95): convert the distance
to an instantaneous detection with `detect`, run the debounce core, and
return the (possibly updated) stable status together with the new
state. -/
def update_debounced_status (s : SpotState) (distance_cm : ℚ) :
    Status × SpotState :=
  let s1 := stepState s (detect distance_cm THRESHOLD_CM)
  (s1.stable_status, s1)

/-- Fold `stepState` over a sequence of instantaneous detections. -/
def runSteps (s : SpotState) : List Bool → SpotState
  | [] => s
  | b :: bs => runSteps (stepState s b) bs

/-- The statuses returned by successive `step` calls on a sequence of
detections. -/
def stepOutputs (s : SpotState) : List Bool → List Status
  | [] => []
  | b :: bs =>
    let s1 := stepState s b
    s1.stable_status :: stepOutputs s1 bs

/-- Number of changes in a status sequence, starting from `prev`. -/
def countTransitions (prev : Status) : List Status → Nat
  | [] => 0
  | st :: rest => (if st ≠ prev then 1 else 0) + countTransitions st rest

/-- The per-spot state of the publisher loop in `main`: the spot itself
and its `last_published` entry (initialized to `None`, line 108). -/
structure LoopState where
  spot : SpotState
  last_published : Option Status
deriving DecidableEq

/-- The initial per-spot loop state: fresh spot, `last_published[spot]
= None`. -/
def initLoop : LoopState :=
  { spot := initSpot, last_published := none }

/-- One tick of the publisher loop for one spot (lines 112-129 of
`main`), taking the instantaneous detection for that tick: run the
debounce step, and if the returned status differs from
`last_published`, record it and emit the published status (`some`),
else emit nothing (`none`). -/
def tick (ls : LoopState) (detected_occ : Bool) : LoopState × Option Status :=
  let s1 := stepState ls.spot detected_occ
  let status := s1.stable_status
  if some status ≠ ls.last_published then
    ({ spot := s1, last_published := some status }, some status)
  else
    ({ spot := s1, last_published := ls.last_published }, none)

/-- Run the publisher loop for one spot over a detection sequence,
numbering the ticks from `i`, and collect the published events as
(tick number, published status) pairs. -/
def runTicks (ls : LoopState) (i : Nat) : List Bool → List (Nat × Status)
  | [] => []
  | d :: ds =>
    let r := tick ls d
    match r.2 with
    | some st => (i, st) :: runTicks r.1 (i + 1) ds
    | none => runTicks r.1 (i + 1) ds

/-- `Spot._park_duration` (lines 48-50): the uniform base draw in
[45, 180] is modelled as the explicit argument `base`; the result is
`base / activity`. -/
def park_duration (activity base : ℚ) : ℚ := base / activity

/-- `Spot._free_duration` (lines 52-54): the uniform base draw in
[30, 150] is modelled as the explicit argument `base`; the result is
`base / activity`. -/
def free_duration (activity base : ℚ) : ℚ := base / activity

/-- Helper for the counter-growth claim: from a confirmed OCCUPIED state
with free counter 0, a run of `k` agreeing (occupied) detections leaves
the status OCCUPIED and adds `k` to the occupied counter. -/
theorem runSteps_replicate_true_occ (k c : Nat) :
    runSteps ⟨Status.OCCUPIED, c, 0⟩ (List.replicate k true) =
      ⟨Status.OCCUPIED, c + k, 0⟩ := by
  induction k generalizing c with
  | zero => simp [runSteps]
  | succ n ih =>
    have hstep : stepState ⟨Status.OCCUPIED, c, 0⟩ true =
        ⟨Status.OCCUPIED, c + 1, 0⟩ := by
      simp [stepState, DEBOUNCE_N]
    simp only [List.replicate_succ, runSteps, hstep, ih]
    congr 1
    omega

/-- C1: whenever a `step` call changes `stableStatus`, the detection of
that call was opposite to the old status and the corresponding
consecutive-detection counter (just incremented by this call) has
reached the debounce threshold `DEBOUNCE_N` = 4, and at that instant
both counters are reset to 0. -/
theorem stable_change_requires_threshold (s : SpotState) (b : Bool)
    (h : (stepState s b).stable_status ≠ s.stable_status) :
    ((stepState s b).occ_count = 0 ∧ (stepState s b).free_count = 0) ∧
    ((b = true ∧ s.stable_status = Status.FREE ∧ DEBOUNCE_N ≤ s.occ_count + 1) ∨
     (b = false ∧ s.stable_status = Status.OCCUPIED ∧ DEBOUNCE_N ≤ s.free_count + 1)) := by
  cases b <;> cases hs : s.stable_status <;>
    simp only [stepState, DEBOUNCE_N, hs] at * <;> split_ifs at * <;> simp_all

/-- Witness for C1 at the state (FREE, occ = 3, free = 0) receiving an
occupied detection: the status changes, and the theorem's conclusion
holds there. -/
theorem stable_change_requires_threshold_witness :
    (stepState ⟨Status.FREE, 3, 0⟩ true).stable_status ≠
      (⟨Status.FREE, 3, 0⟩ : SpotState).stable_status ∧
    (((stepState ⟨Status.FREE, 3, 0⟩ true).occ_count = 0 ∧
      (stepState ⟨Status.FREE, 3, 0⟩ true).free_count = 0) ∧
     ((true = true ∧ (⟨Status.FREE, 3, 0⟩ : SpotState).stable_status = Status.FREE ∧
        DEBOUNCE_N ≤ (⟨Status.FREE, 3, 0⟩ : SpotState).occ_count + 1) ∨
      (true = false ∧ (⟨Status.FREE, 3, 0⟩ : SpotState).stable_status = Status.OCCUPIED ∧
        DEBOUNCE_N ≤ (⟨Status.FREE, 3, 0⟩ : SpotState).free_count + 1))) :=
  ⟨by decide, stable_change_requires_threshold ⟨Status.FREE, 3, 0⟩ true (by decide)⟩

/-- C2: after every `step` call (from any state), at most one of the two
debounce counters is non-zero: the counter opposite to the received
detection is always reset. -/
theorem at_most_one_counter_nonzero (s : SpotState) (b : Bool) :
    (stepState s b).occ_count = 0 ∨ (stepState s b).free_count = 0 := by
  cases b <;> simp only [stepState] <;> split_ifs <;> simp

/-- C3: the detector returns true iff the distance is strictly below
the threshold; in particular a reading exactly at the threshold yields
false (treated as free). -/
theorem detect_iff_lt_strict (d T : ℚ) :
    (detect d T = true ↔ d < T) ∧ detect T T = false := by
  constructor
  · simp [detect]
  · simp [detect]

/-- C4: from the state just after a confirmed transition to OCCUPIED
(both counters 0), a single FREE detection does not revert the status;
any run of fewer than `DEBOUNCE_N` FREE detections leaves it OCCUPIED,
and a run of exactly `DEBOUNCE_N` FREE detections reverts it to FREE. -/
theorem no_bounce_after_occupied (k : Nat) (hk : k < DEBOUNCE_N) :
    (stepState ⟨Status.OCCUPIED, 0, 0⟩ false).stable_status = Status.OCCUPIED ∧
    (runSteps ⟨Status.OCCUPIED, 0, 0⟩ (List.replicate k false)).stable_status =
      Status.OCCUPIED ∧
    (runSteps ⟨Status.OCCUPIED, 0, 0⟩ (List.replicate DEBOUNCE_N false)).stable_status =
      Status.FREE := by
  have hk4 : k < 4 := hk
  interval_cases k <;> exact ⟨by decide, by decide, by decide⟩

/-- Witness for C4 at k = 1. -/
theorem no_bounce_after_occupied_witness :
    1 < DEBOUNCE_N ∧
    ((stepState ⟨Status.OCCUPIED, 0, 0⟩ false).stable_status = Status.OCCUPIED ∧
     (runSteps ⟨Status.OCCUPIED, 0, 0⟩ (List.replicate 1 false)).stable_status =
       Status.OCCUPIED ∧
     (runSteps ⟨Status.OCCUPIED, 0, 0⟩ (List.replicate DEBOUNCE_N false)).stable_status =
       Status.FREE) :=
  ⟨by decide, no_bounce_after_occupied 1 (by decide)⟩

/-- C5 counterexample: on the detection sequence [true,true,true,true]
from the initial loop state, the publisher emits two events — FREE at
tick 1 (because `last_published` starts as `None`) and OCCUPIED at tick
4 — not exactly one event. -/
theorem tttt_publishes_first_tick_too :
    runTicks initLoop 1 [true, true, true, true] =
      [(1, Status.FREE), (4, Status.OCCUPIED)] ∧
    (runTicks initLoop 1 [true, true, true, true]).length ≠ 1 := by
  decide

/-- C5 (amended): on [true,true,true,true] from the initial state, the
`step` outputs are [FREE,FREE,FREE,OCCUPIED], and the publisher loop
emits exactly two events for the spot: FREE at tick 1 (the initial
publish against `last_published = None`) and OCCUPIED at tick 4 — so
exactly one event after the initial publish, at step 4. -/
theorem tttt_outputs_and_events :
    stepOutputs initSpot [true, true, true, true] =
      [Status.FREE, Status.FREE, Status.FREE, Status.OCCUPIED] ∧
    runTicks initLoop 1 [true, true, true, true] =
      [(1, Status.FREE), (4, Status.OCCUPIED)] := by
  decide

/-- C6: on [true,true,false,true,true,true,true] with N = 4 from the
initial FREE state, the `step` outputs are FREE for the first six
detections and OCCUPIED on the seventh, so exactly one stable-status
transition occurs in total, at the 7th detection. -/
theorem interrupted_run_one_transition_at_seventh :
    stepOutputs initSpot [true, true, false, true, true, true, true] =
      [Status.FREE, Status.FREE, Status.FREE, Status.FREE, Status.FREE,
       Status.FREE, Status.OCCUPIED] ∧
    countTransitions Status.FREE
      (stepOutputs initSpot [true, true, false, true, true, true, true]) = 1 := by
  decide

/-- C7 counterexample: on the very first tick (with `last_published =
None`) and a free detection, `stableStatus` is unchanged across the
tick (FREE before and after), yet the publisher emits an event. -/
theorem unchanged_status_still_published_first_tick :
    (stepState initLoop.spot false).stable_status = initLoop.spot.stable_status ∧
    (tick initLoop false).2 = some Status.FREE := by
  decide

/-- C7 (amended): once the spot has been published (so `last_published`
holds the spot's current stable status, which every tick re-establishes),
a tick across which `stableStatus` is unchanged publishes nothing, and
`last_published` again equals the stable status afterwards. -/
theorem change_gating_after_first_publish (ls : LoopState) (d : Bool)
    (hl : ls.last_published = some ls.spot.stable_status)
    (hs : (stepState ls.spot d).stable_status = ls.spot.stable_status) :
    (tick ls d).2 = none ∧
    (tick ls d).1.last_published = some ((tick ls d).1.spot.stable_status) := by
  simp only [tick, hl, hs]
  split_ifs with h
  · simp_all
  · simp_all

/-- Witness for C7 (amended) at a FREE spot that was already published
as FREE, receiving a free detection. -/
theorem change_gating_after_first_publish_witness :
    (⟨⟨Status.FREE, 0, 0⟩, some Status.FREE⟩ : LoopState).last_published =
      some (⟨⟨Status.FREE, 0, 0⟩, some Status.FREE⟩ : LoopState).spot.stable_status ∧
    (stepState (⟨⟨Status.FREE, 0, 0⟩, some Status.FREE⟩ : LoopState).spot false).stable_status =
      (⟨⟨Status.FREE, 0, 0⟩, some Status.FREE⟩ : LoopState).spot.stable_status ∧
    ((tick ⟨⟨Status.FREE, 0, 0⟩, some Status.FREE⟩ false).2 = none ∧
     (tick ⟨⟨Status.FREE, 0, 0⟩, some Status.FREE⟩ false).1.last_published =
       some ((tick ⟨⟨Status.FREE, 0, 0⟩, some Status.FREE⟩ false).1.spot.stable_status)) :=
  ⟨by decide, by decide,
    change_gating_after_first_publish ⟨⟨Status.FREE, 0, 0⟩, some Status.FREE⟩ false
      (by decide) (by decide)⟩

/-- C8: a dwell duration is the uniform base draw divided by the
activity factor; with activity factor 1 and the base draw in the
state's range, the duration lies in [45, 180] seconds for the occupied
state and in [30, 150] seconds for the free state. -/
theorem dwell_duration_bounds (activity base_p base_f : ℚ)
    (ha : activity = 1)
    (hp1 : 45 ≤ base_p) (hp2 : base_p ≤ 180)
    (hf1 : 30 ≤ base_f) (hf2 : base_f ≤ 150) :
    park_duration activity base_p = base_p / activity ∧
    free_duration activity base_f = base_f / activity ∧
    (45 ≤ park_duration activity base_p ∧ park_duration activity base_p ≤ 180) ∧
    (30 ≤ free_duration activity base_f ∧ free_duration activity base_f ≤ 150) := by
  subst ha
  simp [park_duration, free_duration]
  exact ⟨⟨hp1, hp2⟩, hf1, hf2⟩

/-- Witness for C8 at activity 1, occupied base 100, free base 90. -/
theorem dwell_duration_bounds_witness :
    (1 : ℚ) = 1 ∧ (45 : ℚ) ≤ 100 ∧ (100 : ℚ) ≤ 180 ∧
    (30 : ℚ) ≤ 90 ∧ (90 : ℚ) ≤ 150 ∧
    (park_duration 1 100 = 100 / 1 ∧
     free_duration 1 90 = 90 / 1 ∧
     (45 ≤ park_duration 1 100 ∧ park_duration 1 100 ≤ 180) ∧
     (30 ≤ free_duration 1 90 ∧ free_duration 1 90 ≤ 150)) :=
  ⟨by decide, by decide, by decide, by decide, by decide,
    dwell_duration_bounds 1 100 90 rfl (by decide) (by decide) (by decide) (by decide)⟩

/-- C9: `last_published` starts as `None` while the initial stable
status is FREE, a single detection of either value cannot reach the
threshold, so the very first tick leaves the stable status FREE and
publishes exactly one event, with status FREE, even though the stable
status did not change on that tick. -/
theorem first_tick_publishes_free (d : Bool) :
    initLoop.last_published = none ∧
    initSpot.stable_status = Status.FREE ∧
    (stepState initSpot d).stable_status = Status.FREE ∧
    (tick initLoop d).2 = some Status.FREE := by
  cases d <;> exact ⟨rfl, rfl, by decide, by decide⟩

/-- C10: a detection agreeing with the current stable status leaves the
status unchanged and increments the matching counter without resetting
it, for any current counter value — so after `k` agreeing detections
from a confirmed OCCUPIED state the occupied counter equals `k`,
growing past the threshold without any cap. -/
theorem agreeing_detection_grows_counter_unbounded (c f k : Nat) :
    stepState ⟨Status.OCCUPIED, c, f⟩ true = ⟨Status.OCCUPIED, c + 1, 0⟩ ∧
    stepState ⟨Status.FREE, c, f⟩ false = ⟨Status.FREE, 0, f + 1⟩ ∧
    (runSteps ⟨Status.OCCUPIED, 0, 0⟩ (List.replicate k true)).occ_count = k ∧
    (runSteps ⟨Status.OCCUPIED, 0, 0⟩ (List.replicate k true)).stable_status =
      Status.OCCUPIED := by
  refine ⟨by simp [stepState, DEBOUNCE_N], by simp [stepState, DEBOUNCE_N], ?_, ?_⟩
  · rw [runSteps_replicate_true_occ]; simp
  · rw [runSteps_replicate_true_occ]

end SensorSim
